import Mathlib

/-!
Shallow embedding of the orchestration kernel of the smart-data-pipeline
repository: the source-health state machine (src/orchestration/health.py),
the persistent task queue (src/orchestration/task_queue.py), the
orchestrator startup routine (src/orchestration/orchestrator.py), and the
Doctor healing workflow (src/agents/doctor.py).

Modelling conventions:
- Time is counted in hours: a timestamp is a natural number of hours since
  an epoch, so "now + 24 hours" is written now + 24 and the calendar date
  of a timestamp t is t / 24 (this mirrors datetime arithmetic and
  datetime.date() over UTC).
- A database row is a structure value; a method that mutates a row and
  commits is a function from the old row (and the current time) to the
  new row.  SQL UPDATE ... WHERE id = k is a pointwise map over the task
  list touching the rows whose id equals k.
- The LLM ("Oracle"/"Generator") and the file system are external: the
  Doctor pipeline is parameterised by a HealEnv record carrying the
  outcome of each external interaction exactly where the code consults it.
- Python float confidences are modelled as rationals, which preserves the
  order comparisons against the literal thresholds used by the code.
-/

namespace SmartPipeline

/-- States of a data source (health.py, class SourceState). -/
inductive SourceState where
  | ACTIVE
  | DEGRADED
  | QUARANTINED
  | DEAD
deriving DecidableEq, Repr

/-- Columns of a source_health row that the tracker reads and writes
(storage/models.py, class SourceHealthRecord).  The default field values
are the column defaults used when _get_or_create_record inserts a fresh
row (state ACTIVE, counters 0, nullable columns NULL). -/
structure SourceHealthRecord where
  source_name : String := ""
  state : SourceState := .ACTIVE
  last_success_at : Option Nat := none
  last_failure_at : Option Nat := none
  last_error : Option String := none
  success_count : Nat := 0
  failure_count : Nat := 0
  consecutive_failures : Nat := 0
  fix_attempts_today : Nat := 0
  fix_attempts_reset_at : Option Nat := none
  quarantine_until : Option Nat := none
  last_html_hash : Option String := none
deriving DecidableEq, Repr

/-- Circuit breaker setting MAX_FIX_ATTEMPTS_PER_DAY (health.py). -/
def MAX_FIX_ATTEMPTS_PER_DAY : Nat := 3

/-- Quarantine threshold QUARANTINE_THRESHOLD (health.py). -/
def QUARANTINE_THRESHOLD : Nat := 3

/-- Default quarantine duration DEFAULT_QUARANTINE_HOURS (health.py). -/
def DEFAULT_QUARANTINE_HOURS : Nat := 24

/-- Calendar date of a timestamp, as used by datetime.date() comparisons. -/
def dateOf (t : Nat) : Nat := t / 24

/-- Fresh row created by HealthTracker._get_or_create_record. -/
def freshSourceHealthRecord (name : String) : SourceHealthRecord :=
  { source_name := name }

/-- HealthTracker._reset_daily_counters_if_needed: reset fix_attempts_today
when the stored reset timestamp is from an earlier calendar day; when no
reset timestamp is stored yet, stamp it with now. -/
def resetDailyCountersIfNeeded (now : Nat) (r : SourceHealthRecord) :
    SourceHealthRecord :=
  match r.fix_attempts_reset_at with
  | none => { r with fix_attempts_reset_at := some now }
  | some t =>
      if dateOf t < dateOf now then
        { r with fix_attempts_today := 0, fix_attempts_reset_at := some now }
      else r

/-- HealthTracker.record_success. -/
def record_success (now : Nat) (r : SourceHealthRecord) : SourceHealthRecord :=
  let r1 := resetDailyCountersIfNeeded now r
  { r1 with
    success_count := r1.success_count + 1,
    consecutive_failures := 0,
    last_success_at := some now,
    state := .ACTIVE,
    quarantine_until := none }

/-- HealthTracker.record_failure, including the 3-strikes rule. -/
def record_failure (now : Nat) (error : String) (r : SourceHealthRecord) :
    SourceHealthRecord :=
  let r1 := resetDailyCountersIfNeeded now r
  let r2 := { r1 with
    failure_count := r1.failure_count + 1,
    consecutive_failures := r1.consecutive_failures + 1,
    last_failure_at := some now,
    last_error := if error = "" then none else some (error.take 1000) }
  if QUARANTINE_THRESHOLD ≤ r2.consecutive_failures then
    { r2 with
      state := .QUARANTINED,
      quarantine_until := some (now + DEFAULT_QUARANTINE_HOURS) }
  else if 2 ≤ r2.consecutive_failures then
    { r2 with state := .DEGRADED }
  else r2

/-- HealthTracker.is_quarantined: a query with a lazy-expiry side effect;
returns the boolean answer together with the (possibly updated) row. -/
def is_quarantined (now : Nat) (r : SourceHealthRecord) :
    Bool × SourceHealthRecord :=
  if r.state ≠ SourceState.QUARANTINED then (false, r)
  else
    match r.quarantine_until with
    | some u =>
        if u < now then
          (false, { r with state := SourceState.DEGRADED, quarantine_until := none })
        else (true, r)
    | none => (true, r)

/-- HealthTracker.can_attempt_fix: reset-if-needed is performed (and
committed) first, then the daily counter is compared with the budget. -/
def can_attempt_fix (now : Nat) (r : SourceHealthRecord) :
    Bool × SourceHealthRecord :=
  let r1 := resetDailyCountersIfNeeded now r
  (decide (r1.fix_attempts_today < MAX_FIX_ATTEMPTS_PER_DAY), r1)

/-- HealthTracker.record_fix_attempt: reset-if-needed first, then
increment the daily counter. -/
def record_fix_attempt (now : Nat) (r : SourceHealthRecord) :
    SourceHealthRecord :=
  let r1 := resetDailyCountersIfNeeded now r
  { r1 with fix_attempts_today := r1.fix_attempts_today + 1 }

/-- HealthTracker.mark_dead. -/
def mark_dead (r : SourceHealthRecord) : SourceHealthRecord :=
  { r with state := SourceState.DEAD }

/-- Task kinds (task_queue.py, class TaskType). -/
inductive TaskType where
  | ADD_SOURCE
  | FIX_SOURCE
  | REFRESH_SOURCE
deriving DecidableEq, Repr

/-- Task states (task_queue.py, class TaskState). -/
inductive TaskState where
  | PENDING
  | IN_PROGRESS
  | COMPLETED
  | FAILED
  | QUARANTINED
deriving DecidableEq, Repr

/-- Columns of a task_queue row (storage/models.py, class TaskRecord). -/
structure TaskRecord where
  id : Nat
  task_type : TaskType
  target : String
  state : TaskState
  priority : Int
  created_at : Nat
  started_at : Option Nat := none
  completed_at : Option Nat := none
  error_message : Option String := none
  retry_count : Nat := 0
  max_retries : Nat := 3
deriving DecidableEq, Repr

/-- The persistent queue: the task table, plus the autoincrement cursor
that assigns primary keys. -/
structure TaskQueue where
  tasks : List TaskRecord
  next_id : Nat := 1
deriving DecidableEq, Repr

/-- TaskQueue.add_task: insert a PENDING row stamped with now, and return
it together with the updated queue. -/
def add_task (now : Nat) (ty : TaskType) (target : String) (priority : Int)
    (q : TaskQueue) : TaskRecord × TaskQueue :=
  let record : TaskRecord :=
    { id := q.next_id, task_type := ty, target := target,
      state := TaskState.PENDING, priority := priority, created_at := now }
  (record, { q with tasks := q.tasks ++ [record], next_id := q.next_id + 1 })

/-- Row a strictly precedes row b in the ORDER BY priority DESC,
created_at ASC ordering used by get_next_task. -/
def sortsBefore (a b : TaskRecord) : Bool :=
  decide (b.priority < a.priority) ||
    (decide (a.priority = b.priority) && decide (a.created_at < b.created_at))

/-- One step of scanning for the first row of the ORDER BY: keep the
current best unless the next row strictly precedes it. -/
def chooseNext (acc : Option TaskRecord) (t : TaskRecord) :
    Option TaskRecord :=
  match acc with
  | none => some t
  | some b => if sortsBefore t b then some t else some b

/-- The row returned by the get_next_task SELECT: the first PENDING row in
the priority DESC, created_at ASC order (earlier table rows win full
ties, matching a stable scan). -/
def selectNext (ts : List TaskRecord) : Option TaskRecord :=
  (ts.filter fun t => decide (t.state = TaskState.PENDING)).foldl
    chooseNext none

/-- Specification-side ordering used to state the selection property of
get_next_task: row a sorts no later than row b under priority DESC,
created_at ASC. -/
def keyLe (a b : TaskRecord) : Prop :=
  b.priority < a.priority ∨
    (a.priority = b.priority ∧ a.created_at ≤ b.created_at)

/-- Terminal task states (COMPLETED and FAILED). -/
def isTerminal (s : TaskState) : Bool :=
  decide (s = TaskState.COMPLETED) || decide (s = TaskState.FAILED)

/-- TaskQueue.get_next_task: claim the selected PENDING row by setting it
IN_PROGRESS and stamping started_at; None when no PENDING row exists. -/
def get_next_task (now : Nat) (q : TaskQueue) :
    Option TaskRecord × TaskQueue :=
  match selectNext q.tasks with
  | none => (none, q)
  | some r =>
      (some { r with state := TaskState.IN_PROGRESS, started_at := some now },
       { q with tasks := q.tasks.map fun t =>
          if t.id = r.id then
            { t with state := TaskState.IN_PROGRESS, started_at := some now }
          else t })

/-- Truthiness of an optional Python string (None and "" are falsy). -/
def strTruthy (s : Option String) : Bool :=
  match s with
  | none => false
  | some e => decide (e ≠ "")

/-- Field updates performed by TaskQueue.update_state on the selected row. -/
def applyUpdate (now : Nat) (st : TaskState) (err : Option String)
    (t : TaskRecord) : TaskRecord :=
  { t with
    state := st,
    error_message := if strTruthy err then err else t.error_message,
    completed_at :=
      if st = TaskState.COMPLETED ∨ st = TaskState.FAILED then some now
      else t.completed_at,
    retry_count :=
      if st = TaskState.FAILED then t.retry_count + 1 else t.retry_count }

/-- TaskQueue.update_state: update the row whose id matches (a missing id
is a logged no-op). -/
def update_state (now : Nat) (task_id : Nat) (st : TaskState)
    (err : Option String) (q : TaskQueue) : TaskQueue :=
  { q with tasks := q.tasks.map fun t =>
      if t.id = task_id then applyUpdate now st err t else t }

/-- Synthetic error message written by cleanup_stale_tasks. -/
def staleMsg (max_age_hours : Nat) : String :=
  "Stale task (started > " ++ toString max_age_hours ++ "h ago)"

/-- Condition of the cleanup_stale_tasks query: IN_PROGRESS with
started_at before now - max_age_hours (a NULL started_at never
satisfies the SQL comparison). -/
def staleP (now max_age_hours : Nat) (t : TaskRecord) : Bool :=
  decide (t.state = TaskState.IN_PROGRESS) &&
    (match t.started_at with
     | some s => decide (s + max_age_hours < now)
     | none => false)

/-- TaskQueue.cleanup_stale_tasks: force stale IN_PROGRESS rows to FAILED
with a synthetic error and completed_at stamp; return how many rows were
cleaned together with the updated queue. -/
def cleanup_stale_tasks (now : Nat) (max_age_hours : Nat) (q : TaskQueue) :
    Nat × TaskQueue :=
  ((q.tasks.filter (staleP now max_age_hours)).length,
   { q with tasks := q.tasks.map fun t =>
      if staleP now max_age_hours t then
        { t with
          state := TaskState.FAILED,
          error_message := some (staleMsg max_age_hours),
          completed_at := some now }
      else t })

/-- TaskQueue.get_in_progress_tasks. -/
def get_in_progress_tasks (q : TaskQueue) : List TaskRecord :=
  q.tasks.filter fun t => decide (t.state = TaskState.IN_PROGRESS)

/-- Orchestrator.startup, restricted to its queue effects: clean up stale
tasks (24h threshold), then reset every remaining IN_PROGRESS task to
PENDING through update_state. -/
def startup (now : Nat) (q : TaskQueue) : TaskQueue :=
  let q1 := (cleanup_stale_tasks now 24 q).2
  (get_in_progress_tasks q1).foldl
    (fun acc t => update_state now t.id TaskState.PENDING none acc) q1

/-- Parsed JSON verdict of the Diagnostic Oracle (doctor.py, diagnose). -/
structure DiagJson where
  root_cause : String
  fix_strategy : String
  suggested_fix : String
  confidence : ℚ
deriving DecidableEq, Repr

/-- Result of analyzing a failure (doctor.py, class Diagnosis). -/
structure Diagnosis where
  source_name : String
  error_type : String
  root_cause : String
  suggested_fix : String
  confidence : ℚ
  fix_strategy : String := "patch"
deriving DecidableEq, Repr

/-- Full context needed for diagnosis (doctor.py, DiagnosisContext). -/
structure DiagnosisContext where
  source_name : String
  error_type : String
  error_message : String
  failure_count : Nat
  fix_attempts_today : Nat
  is_quarantined : Bool
  current_code : Option String := none
  current_html : Option String := none
  previous_html_hash : Option String := none
  html_changed : Bool := false
deriving DecidableEq, Repr

/-- DoctorAgent.collect_context, over the health row it reads back. -/
def collect_context (source_name error_type error_message : String)
    (health : Option SourceHealthRecord) (current_code : Option String)
    (previous_hash : Option String) : DiagnosisContext :=
  { source_name := source_name,
    error_type := error_type,
    error_message := error_message.take 2000,
    failure_count :=
      match health with
      | some h => h.consecutive_failures
      | none => 1,
    fix_attempts_today :=
      match health with
      | some h => h.fix_attempts_today
      | none => 0,
    is_quarantined :=
      match health with
      | some h => decide (h.state = SourceState.QUARANTINED)
      | none => false,
    current_code := current_code,
    current_html := none,
    previous_html_hash := previous_hash,
    html_changed := false }

/-- DoctorAgent.diagnose: an Oracle failure or unparseable reply (the
except branch) yields a confidence-0 diagnosis instead of raising. -/
def diagnose (ctx : DiagnosisContext) (oracle : Option DiagJson) : Diagnosis :=
  match oracle with
  | some j =>
      { source_name := ctx.source_name,
        error_type := ctx.error_type,
        root_cause := j.root_cause,
        suggested_fix := j.suggested_fix,
        confidence := j.confidence,
        fix_strategy := j.fix_strategy }
  | none =>
      { source_name := ctx.source_name,
        error_type := ctx.error_type,
        root_cause := "Diagnosis failed",
        suggested_fix := "Manual intervention required",
        confidence := 0 }

/-- DoctorAgent.generate_patch: None without current code; otherwise the
Generator output (already None when the LLM call failed or the candidate
did not parse). -/
def generate_patch (ctx : DiagnosisContext) (patchText : Option String) :
    Option String :=
  match ctx.current_code with
  | none => none
  | some _ => patchText

/-- Row of the fix_history audit table (storage/models.py). -/
structure FixHistoryRecord where
  source_name : String
  error_type : String
  error_message : Option String
  root_cause : Option String
  patch_applied : Option String
  success : Bool
deriving DecidableEq, Repr

/-- DoctorAgent._record_fix_history: the row it inserts. -/
def mk_fix_history (source_name : String) (ctx : DiagnosisContext)
    (d : Diagnosis) (success : Bool) (patch : Option String) :
    FixHistoryRecord :=
  { source_name := source_name,
    error_type := ctx.error_type,
    error_message :=
      if ctx.error_message = "" then none
      else some (ctx.error_message.take 1000),
    root_cause :=
      if d.root_cause = "" then none else some (d.root_cause.take 1000),
    patch_applied :=
      match patch with
      | some p => if p = "" then none else some (p.take 5000)
      | none => none,
    success := success }

/-- Outcomes of the external interactions the healing pipeline performs,
in the order the code consults them.  collectRaises models an exception
escaping from the context-collection stage (caught only by the outer
handler of heal); currentCode is the registry read; oracleDiag is the
parsed diagnosis JSON (none = Oracle failure or unparseable output);
patchText is the Generator output surviving the syntax check; stageOk,
validateOk, promoteOk are the staging write, the staged validation, and
the promotion; learnOk is the best-effort lesson extraction. -/
structure HealEnv where
  collectRaises : Bool := false
  currentCode : Option String := none
  oracleDiag : Option DiagJson := none
  patchText : Option String := none
  stageOk : Bool := true
  validateOk : Bool := true
  promoteOk : Bool := true
  learnOk : Bool := true
deriving DecidableEq, Repr

/-- Observable outcome of one DoctorAgent.heal invocation: the returned
boolean, the fix_history rows inserted, the staging files written, the
Lesson rows appended, and the health row as left behind. -/
structure HealOutcome where
  success : Bool
  fixHistory : List FixHistoryRecord
  stagedWrites : List String
  lessons : Nat
  health : SourceHealthRecord
deriving DecidableEq, Repr

/-- Confidence the diagnosis step will report under a given environment
(the Oracle confidence, or 0 when the Oracle fails). -/
def diagConfidence (env : HealEnv) : ℚ :=
  match env.oracleDiag with
  | some j => j.confidence
  | none => 0

/-- DoctorAgent.heal: circuit-breaker check, budget consumption, then the
collect → diagnose → patch → stage → validate → promote pipeline, with
the audit writes exactly where the code performs them.  The outer
exception handler (except branch of heal) returns False without any
audit write; the circuit-breaker refusal likewise returns before any
audit write. -/
def heal (now : Nat) (rec : SourceHealthRecord)
    (source_name error_type error_message : String) (env : HealEnv) :
    HealOutcome :=
  let cb := can_attempt_fix now rec
  if cb.1 = false then
    { success := false, fixHistory := [], stagedWrites := [], lessons := 0,
      health := cb.2 }
  else
    let rec2 := record_fix_attempt now cb.2
    if env.collectRaises then
      { success := false, fixHistory := [], stagedWrites := [], lessons := 0,
        health := rec2 }
    else
      let ctx := collect_context source_name error_type error_message
        (some rec2) env.currentCode rec2.last_html_hash
      let d := diagnose ctx env.oracleDiag
      if d.confidence < 3 / 10 then
        { success := false,
          fixHistory := [mk_fix_history source_name ctx d false none],
          stagedWrites := [], lessons := 0, health := rec2 }
      else
        match generate_patch ctx env.patchText with
        | none =>
            { success := false,
              fixHistory := [mk_fix_history source_name ctx d false none],
              stagedWrites := [], lessons := 0, health := rec2 }
        | some patch =>
            if env.stageOk = false then
              { success := false,
                fixHistory := [mk_fix_history source_name ctx d false none],
                stagedWrites := [], lessons := 0, health := rec2 }
            else if env.validateOk = false then
              { success := false,
                fixHistory := [mk_fix_history source_name ctx d false none],
                stagedWrites := [source_name], lessons := 0, health := rec2 }
            else if env.promoteOk = false then
              { success := false,
                fixHistory := [mk_fix_history source_name ctx d false none],
                stagedWrites := [source_name], lessons := 0, health := rec2 }
            else
              { success := true,
                fixHistory := [mk_fix_history source_name ctx d true (some patch)],
                stagedWrites := [source_name],
                lessons := if env.learnOk then 1 else 0, health := rec2 }

/-- Folding record_failure over a call sequence starting from a fresh row. -/
def recordFailures (name : String) (calls : List (Nat × String)) :
    SourceHealthRecord :=
  calls.foldl (fun r c => record_failure c.1 c.2 r)
    (freshSourceHealthRecord name)

/-- Example rows and queues used to evaluate the operations on concrete
data. -/
def sampleTaskA : TaskRecord :=
  { id := 1, task_type := .ADD_SOURCE, target := "u1",
    state := .PENDING, priority := 5, created_at := 10 }

/-- Second example row (highest priority, later creation). -/
def sampleTaskB : TaskRecord :=
  { id := 2, task_type := .FIX_SOURCE, target := "u2",
    state := .PENDING, priority := 8, created_at := 12 }

/-- Third example row (highest priority, earliest creation: the one
get_next_task must claim). -/
def sampleTaskC : TaskRecord :=
  { id := 3, task_type := .REFRESH_SOURCE, target := "u3",
    state := .PENDING, priority := 8, created_at := 11 }

/-- Example queue with three PENDING rows. -/
def sampleQueue : TaskQueue :=
  { tasks := [sampleTaskA, sampleTaskB, sampleTaskC], next_id := 4 }

/-- A COMPLETED (terminal) row. -/
def doneTask : TaskRecord :=
  { id := 1, task_type := .ADD_SOURCE, target := "u",
    state := .COMPLETED, priority := 5, created_at := 0 }

/-- Queue holding one terminal row. -/
def doneQueue : TaskQueue :=
  { tasks := [doneTask], next_id := 2 }

/-- An IN_PROGRESS row started at hour 0 (stale at hour 100). -/
def staleTask : TaskRecord :=
  { id := 1, task_type := .REFRESH_SOURCE, target := "s1",
    state := .IN_PROGRESS, priority := 5, created_at := 0,
    started_at := some 0 }

/-- An IN_PROGRESS row started at hour 90 (young at hour 100). -/
def youngTask : TaskRecord :=
  { id := 2, task_type := .REFRESH_SOURCE, target := "s2",
    state := .IN_PROGRESS, priority := 5, created_at := 1,
    started_at := some 90 }

/-- Queue interrupted mid-run: one stale and one young IN_PROGRESS row. -/
def recoveryQueue : TaskQueue :=
  { tasks := [staleTask, youngTask], next_id := 3 }

/-- Oracle verdict with confidence 0.1 (below the 0.3 threshold). -/
def lowConfDiag : DiagJson :=
  { root_cause := "selector drifted", fix_strategy := "patch",
    suggested_fix := "use the new selector", confidence := 1 / 10 }

/-- Healing environment whose diagnosis has confidence 0.1. -/
def lowConfEnv : HealEnv :=
  { currentCode := some "class P", oracleDiag := some lowConfDiag,
    patchText := some "class P2" }

/-- Oracle verdict with confidence 0.95. -/
def highConfDiag : DiagJson :=
  { root_cause := "selector drifted", fix_strategy := "patch",
    suggested_fix := "use the new selector", confidence := 95 / 100 }

/-- Healing environment in which every stage succeeds. -/
def goodEnv : HealEnv :=
  { currentCode := some "class P", oracleDiag := some highConfDiag,
    patchText := some "class P2" }

/-- Health row whose daily fix budget is exhausted (3 attempts today). -/
def exhaustedRec : SourceHealthRecord :=
  { freshSourceHealthRecord "s" with
    fix_attempts_today := 3, fix_attempts_reset_at := some 0 }

@[simp]
theorem resetDaily_state (now : Nat) (r : SourceHealthRecord) :
    (resetDailyCountersIfNeeded now r).state = r.state := by
  unfold resetDailyCountersIfNeeded
  cases hfar : r.fix_attempts_reset_at
  · rfl
  · dsimp only; split <;> rfl

@[simp]
theorem resetDaily_success_count (now : Nat) (r : SourceHealthRecord) :
    (resetDailyCountersIfNeeded now r).success_count = r.success_count := by
  unfold resetDailyCountersIfNeeded
  cases hfar : r.fix_attempts_reset_at
  · rfl
  · dsimp only; split <;> rfl

@[simp]
theorem resetDaily_failure_count (now : Nat) (r : SourceHealthRecord) :
    (resetDailyCountersIfNeeded now r).failure_count = r.failure_count := by
  unfold resetDailyCountersIfNeeded
  cases hfar : r.fix_attempts_reset_at
  · rfl
  · dsimp only; split <;> rfl

@[simp]
theorem resetDaily_consecutive (now : Nat) (r : SourceHealthRecord) :
    (resetDailyCountersIfNeeded now r).consecutive_failures =
      r.consecutive_failures := by
  unfold resetDailyCountersIfNeeded
  cases hfar : r.fix_attempts_reset_at
  · rfl
  · dsimp only; split <;> rfl

@[simp]
theorem resetDaily_quarantine (now : Nat) (r : SourceHealthRecord) :
    (resetDailyCountersIfNeeded now r).quarantine_until =
      r.quarantine_until := by
  unfold resetDailyCountersIfNeeded
  cases hfar : r.fix_attempts_reset_at
  · rfl
  · dsimp only; split <;> rfl

@[simp]
theorem resetDaily_last_success (now : Nat) (r : SourceHealthRecord) :
    (resetDailyCountersIfNeeded now r).last_success_at =
      r.last_success_at := by
  unfold resetDailyCountersIfNeeded
  cases hfar : r.fix_attempts_reset_at
  · rfl
  · dsimp only; split <;> rfl

@[simp]
theorem resetDaily_last_failure (now : Nat) (r : SourceHealthRecord) :
    (resetDailyCountersIfNeeded now r).last_failure_at =
      r.last_failure_at := by
  unfold resetDailyCountersIfNeeded
  cases hfar : r.fix_attempts_reset_at
  · rfl
  · dsimp only; split <;> rfl

@[simp]
theorem resetDaily_last_error (now : Nat) (r : SourceHealthRecord) :
    (resetDailyCountersIfNeeded now r).last_error = r.last_error := by
  unfold resetDailyCountersIfNeeded
  cases hfar : r.fix_attempts_reset_at
  · rfl
  · dsimp only; split <;> rfl

@[simp]
theorem resetDaily_html_hash (now : Nat) (r : SourceHealthRecord) :
    (resetDailyCountersIfNeeded now r).last_html_hash = r.last_html_hash := by
  unfold resetDailyCountersIfNeeded
  cases hfar : r.fix_attempts_reset_at
  · rfl
  · dsimp only; split <;> rfl

@[simp]
theorem resetDaily_source_name (now : Nat) (r : SourceHealthRecord) :
    (resetDailyCountersIfNeeded now r).source_name = r.source_name := by
  unfold resetDailyCountersIfNeeded
  cases hfar : r.fix_attempts_reset_at
  · rfl
  · dsimp only; split <;> rfl

theorem record_failure_failure_count (now : Nat) (e : String)
    (r : SourceHealthRecord) :
    (record_failure now e r).failure_count = r.failure_count + 1 := by
  unfold record_failure
  dsimp only
  split
  · simp
  · split <;> simp

theorem record_failure_consecutive (now : Nat) (e : String)
    (r : SourceHealthRecord) :
    (record_failure now e r).consecutive_failures =
      r.consecutive_failures + 1 := by
  unfold record_failure
  dsimp only
  split
  · simp
  · split <;> simp

theorem record_failure_state (now : Nat) (e : String)
    (r : SourceHealthRecord) :
    (record_failure now e r).state =
      (if 3 ≤ r.consecutive_failures + 1 then SourceState.QUARANTINED
       else if 2 ≤ r.consecutive_failures + 1 then SourceState.DEGRADED
       else r.state) := by
  unfold record_failure QUARANTINE_THRESHOLD
  dsimp only
  split
  · rename_i h
    simp only [resetDaily_consecutive] at h
    simp [h]
  · split
    · rename_i h h2
      simp only [resetDaily_consecutive] at h h2
      simp [h, h2]
    · rename_i h h2
      simp only [resetDaily_consecutive] at h h2
      simp [h, h2]

theorem record_failure_quarantine (now : Nat) (e : String)
    (r : SourceHealthRecord) :
    (record_failure now e r).quarantine_until =
      (if 3 ≤ r.consecutive_failures + 1 then
        some (now + DEFAULT_QUARANTINE_HOURS)
       else r.quarantine_until) := by
  unfold record_failure QUARANTINE_THRESHOLD
  dsimp only
  split
  · rename_i h
    simp only [resetDaily_consecutive] at h
    simp [h]
  · rename_i h
    simp only [resetDaily_consecutive] at h
    split <;> simp [h]

theorem recordFailures_append (name : String) (calls : List (Nat × String))
    (t : Nat) (e : String) :
    recordFailures name (calls ++ [(t, e)]) =
      record_failure t e (recordFailures name calls) := by
  unfold recordFailures
  rw [List.foldl_append]
  rfl

theorem recordFailures_inv (name : String) (calls : List (Nat × String)) :
    (recordFailures name calls).consecutive_failures = calls.length ∧
    (recordFailures name calls).failure_count = calls.length ∧
    (recordFailures name calls).state =
      (if 3 ≤ calls.length then SourceState.QUARANTINED
       else if calls.length = 2 then SourceState.DEGRADED
       else SourceState.ACTIVE) ∧
    (calls.length < 3 → (recordFailures name calls).quarantine_until = none) := by
  induction calls using List.reverseRecOn with
  | nil =>
      refine ⟨rfl, rfl, rfl, fun _ => rfl⟩
  | append_singleton l c ih =>
      obtain ⟨ihc, ihf, ihs, ihq⟩ := ih
      rcases c with ⟨t, e⟩
      rw [recordFailures_append]
      refine ⟨?_, ?_, ?_, ?_⟩
      · rw [record_failure_consecutive, ihc]; simp
      · rw [record_failure_failure_count, ihf]; simp
      · rw [record_failure_state, ihc]
        simp only [List.length_append, List.length_singleton]
        by_cases h3 : 3 ≤ l.length + 1
        · simp [h3]
        · have h2 : l.length + 1 = 2 ↔ 2 ≤ l.length + 1 := by omega
          by_cases hh : 2 ≤ l.length + 1
          · simp [h3, hh, h2]
          · have h0 : l.length = 0 := by omega
            simp [h3, hh, h2, ihs, h0]
      · intro hlt
        simp only [List.length_append, List.length_singleton] at hlt
        rw [record_failure_quarantine, ihc]
        have : ¬ 3 ≤ l.length + 1 := by omega
        simp only [this, if_false]
        exact ihq (by omega)

/-- Claim C1: starting from a fresh source, after each record_failure call
the state is ACTIVE for a failure streak of 0 or 1, DEGRADED at exactly
2, and QUARANTINED at 3 or more with quarantine_until stamped 24 hours
after the call; moreover every record_failure call increments both
failure_count and consecutive_failures by one. -/
theorem C1_record_failure_three_strikes (name : String)
    (calls : List (Nat × String)) (t : Nat) (e : String) :
    (recordFailures name (calls ++ [(t, e)])).failure_count =
        calls.length + 1 ∧
    (recordFailures name (calls ++ [(t, e)])).consecutive_failures =
        calls.length + 1 ∧
    (recordFailures name (calls ++ [(t, e)])).state =
      (if 3 ≤ calls.length + 1 then SourceState.QUARANTINED
       else if calls.length + 1 = 2 then SourceState.DEGRADED
       else SourceState.ACTIVE) ∧
    (recordFailures name (calls ++ [(t, e)])).quarantine_until =
      (if 3 ≤ calls.length + 1 then some (t + DEFAULT_QUARANTINE_HOURS)
       else none) ∧
    ∀ (now : Nat) (err : String) (r : SourceHealthRecord),
      (record_failure now err r).failure_count = r.failure_count + 1 ∧
      (record_failure now err r).consecutive_failures =
        r.consecutive_failures + 1 := by
  obtain ⟨hc, hf, hs, hq⟩ := recordFailures_inv name (calls ++ [(t, e)])
  simp only [List.length_append, List.length_singleton] at hc hf hs hq
  refine ⟨hf, hc, hs, ?_, ?_⟩
  · by_cases h3 : 3 ≤ calls.length + 1
    · obtain ⟨hc', _, _, _⟩ := recordFailures_inv name calls
      rw [recordFailures_append, record_failure_quarantine, hc']
      simp [h3]
    · simp only [h3, if_false]
      exact hq (by omega)
  · intro now err r
    exact ⟨record_failure_failure_count now err r,
      record_failure_consecutive now err r⟩

/-- Claim C2 counterexample: record_success does clear the DEAD state —
a source marked DEAD and then given one success ends up ACTIVE, so the
clause that DEAD must not be cleared by record_success fails on the code. -/
theorem C2_counterexample_success_clears_dead :
    (mark_dead (freshSourceHealthRecord "s")).state = SourceState.DEAD ∧
    (record_success 0 (mark_dead (freshSourceHealthRecord "s"))).state =
      SourceState.ACTIVE := by
  exact ⟨rfl, rfl⟩

/-- Claim C2 as amended: a single record_success call sets
consecutive_failures to 0, state to ACTIVE, clears quarantine_until,
increments success_count and stamps last_success_at, for every prior
state — including DEAD, which it also resets to ACTIVE. -/
theorem C2_record_success_resets (now : Nat) (r : SourceHealthRecord) :
    (record_success now r).consecutive_failures = 0 ∧
    (record_success now r).state = SourceState.ACTIVE ∧
    (record_success now r).quarantine_until = none ∧
    (record_success now r).success_count = r.success_count + 1 ∧
    (record_success now r).last_success_at = some now := by
  unfold record_success
  dsimp only
  refine ⟨rfl, rfl, rfl, ?_, rfl⟩
  simp

/-- Claim C6: the fix-attempt circuit breaker — true initially, false
after three same-day record_fix_attempt calls, and true again (with the
counter reset to 0) once the clock crosses a calendar-day boundary past
the stored reset date; the reset-if-needed step runs first in both
can_attempt_fix and record_fix_attempt. -/
theorem C6_fix_attempt_circuit_breaker (name : String) (t1 t2 t3 now : Nat)
    (r : SourceHealthRecord)
    (h1 : dateOf t1 = dateOf now) (h2 : dateOf t2 = dateOf now)
    (h3 : dateOf t3 = dateOf now) :
    (can_attempt_fix now (freshSourceHealthRecord name)).1 = true ∧
    (can_attempt_fix now
      (record_fix_attempt t3 (record_fix_attempt t2
        (record_fix_attempt t1 (freshSourceHealthRecord name))))).1 = false ∧
    (∀ tr, r.fix_attempts_reset_at = some tr → dateOf tr < dateOf now →
      (can_attempt_fix now r).1 = true ∧
      (can_attempt_fix now r).2.fix_attempts_today = 0 ∧
      (record_fix_attempt now r).fix_attempts_today = 1) := by
  have n12 : ¬ dateOf t1 < dateOf t2 := by omega
  have n13 : ¬ dateOf t1 < dateOf t3 := by omega
  have n1n : ¬ dateOf t1 < dateOf now := by omega
  refine ⟨rfl, ?_, ?_⟩
  · simp [can_attempt_fix, record_fix_attempt, resetDailyCountersIfNeeded,
      freshSourceHealthRecord, n12, n13, n1n, MAX_FIX_ATTEMPTS_PER_DAY]
  · intro tr htr hlt
    refine ⟨?_, ?_, ?_⟩
    · simp [can_attempt_fix, resetDailyCountersIfNeeded, htr, hlt,
        MAX_FIX_ATTEMPTS_PER_DAY]
    · simp [can_attempt_fix, resetDailyCountersIfNeeded, htr, hlt]
    · simp [record_fix_attempt, resetDailyCountersIfNeeded, htr, hlt]

/-- Claim C6 witness at concrete inputs: three attempts at hour 25 block
the breaker that same day, and a reset timestamp from the previous day
reopens it and zeroes the counter. -/
theorem C6_fix_attempt_circuit_breaker_witness :
    (can_attempt_fix 25 (freshSourceHealthRecord "s")).1 = true ∧
    (can_attempt_fix 25
      (record_fix_attempt 25 (record_fix_attempt 25
        (record_fix_attempt 25 (freshSourceHealthRecord "s"))))).1 = false ∧
    (can_attempt_fix 25 { freshSourceHealthRecord "s" with
        fix_attempts_today := 3, fix_attempts_reset_at := some 0 }).1 = true ∧
    (can_attempt_fix 25 { freshSourceHealthRecord "s" with
        fix_attempts_today := 3,
        fix_attempts_reset_at := some 0 }).2.fix_attempts_today = 0 ∧
    (record_fix_attempt 25 { freshSourceHealthRecord "s" with
        fix_attempts_today := 3,
        fix_attempts_reset_at := some 0 }).fix_attempts_today = 1 := by
  have H := C6_fix_attempt_circuit_breaker "s" 25 25 25 25
    { freshSourceHealthRecord "s" with
        fix_attempts_today := 3, fix_attempts_reset_at := some 0 }
    rfl rfl rfl
  have H3 := H.2.2 0 rfl (by decide)
  exact ⟨H.1, H.2.1, H3.1, H3.2.1, H3.2.2⟩

/-- Claim C7: is_quarantined is false when the state is not QUARANTINED;
when QUARANTINED with an expired quarantine_until it transitions the row
to DEGRADED, clears quarantine_until and returns false; otherwise it
returns true and leaves the row unchanged. -/
theorem C7_is_quarantined_lazy_expiry (now : Nat) (r : SourceHealthRecord) :
    (r.state ≠ SourceState.QUARANTINED → is_quarantined now r = (false, r)) ∧
    (∀ u, r.state = SourceState.QUARANTINED → r.quarantine_until = some u →
      u < now →
      is_quarantined now r =
        (false, { r with state := SourceState.DEGRADED,
                         quarantine_until := none })) ∧
    (r.state = SourceState.QUARANTINED →
      (∀ u, r.quarantine_until = some u → ¬ u < now) →
      is_quarantined now r = (true, r)) := by
  refine ⟨?_, ?_, ?_⟩
  · intro h
    simp [is_quarantined, h]
  · intro u hs hu hlt
    simp [is_quarantined, hs, hu, hlt]
  · intro hs hno
    cases hqu : r.quarantine_until with
    | none => simp [is_quarantined, hs, hqu]
    | some u => simp [is_quarantined, hs, hqu, hno u hqu]

/-- Claim C7 witness at concrete rows: an ACTIVE row answers false and is
untouched; a QUARANTINED row whose quarantine expired at hour 5, queried
at hour 10, is released to DEGRADED; one expiring at hour 20 stays
quarantined. -/
theorem C7_is_quarantined_lazy_expiry_witness :
    is_quarantined 10 (freshSourceHealthRecord "s") =
      (false, freshSourceHealthRecord "s") ∧
    is_quarantined 10 { freshSourceHealthRecord "s" with
        state := SourceState.QUARANTINED, quarantine_until := some 5 } =
      (false, { freshSourceHealthRecord "s" with
        state := SourceState.DEGRADED, quarantine_until := none }) ∧
    is_quarantined 10 { freshSourceHealthRecord "s" with
        state := SourceState.QUARANTINED, quarantine_until := some 20 } =
      (true, { freshSourceHealthRecord "s" with
        state := SourceState.QUARANTINED, quarantine_until := some 20 }) := by
  refine ⟨?_, ?_, ?_⟩
  · exact (C7_is_quarantined_lazy_expiry 10 (freshSourceHealthRecord "s")).1
      (by decide)
  · exact (C7_is_quarantined_lazy_expiry 10 _).2.1 5 rfl rfl (by decide)
  · exact (C7_is_quarantined_lazy_expiry 10 _).2.2 rfl
      (by intro u hu; cases hu; decide)

/-- Claim C10 counterexample: record_success is not frame-silent outside
the success-side fields — crossing a day boundary, it also resets
fix_attempts_today (here from 2 to 0) through the daily-reset step. -/
theorem C10_counterexample_success_resets_daily_counter :
    ({ freshSourceHealthRecord "s" with
        fix_attempts_today := 2,
        fix_attempts_reset_at := some 0 } :
          SourceHealthRecord).fix_attempts_today = 2 ∧
    (record_success 24 { freshSourceHealthRecord "s" with
        fix_attempts_today := 2,
        fix_attempts_reset_at := some 0 }).fix_attempts_today = 0 := by
  exact ⟨rfl, rfl⟩

/-- Claim C10 as amended: record_success leaves failure_count,
last_failure_at and last_error (and the source name and html hash)
unchanged; besides the success-side fields it touches fix_attempts_today
and fix_attempts_reset_at exactly as the daily-reset step does. -/
theorem C10_record_success_frame (now : Nat) (r : SourceHealthRecord) :
    (record_success now r).failure_count = r.failure_count ∧
    (record_success now r).last_failure_at = r.last_failure_at ∧
    (record_success now r).last_error = r.last_error ∧
    (record_success now r).fix_attempts_today =
      (resetDailyCountersIfNeeded now r).fix_attempts_today ∧
    (record_success now r).fix_attempts_reset_at =
      (resetDailyCountersIfNeeded now r).fix_attempts_reset_at ∧
    (record_success now r).last_html_hash = r.last_html_hash ∧
    (record_success now r).source_name = r.source_name := by
  unfold record_success
  dsimp only
  exact ⟨by simp, by simp, by simp, rfl, rfl, by simp, by simp⟩

theorem keyLe_refl (a : TaskRecord) : keyLe a a :=
  Or.inr ⟨rfl, le_refl _⟩

theorem keyLe_trans {a b c : TaskRecord} (h1 : keyLe a b) (h2 : keyLe b c) :
    keyLe a c := by
  unfold keyLe at h1 h2 ⊢
  rcases h1 with h1 | ⟨e1, l1⟩ <;> rcases h2 with h2 | ⟨e2, l2⟩
  · exact Or.inl (lt_trans h2 h1)
  · exact Or.inl (e2 ▸ h1)
  · exact Or.inl (e1 ▸ h2)
  · exact Or.inr ⟨e1.trans e2, le_trans l1 l2⟩

theorem keyLe_of_sortsBefore {a b : TaskRecord}
    (h : sortsBefore a b = true) : keyLe a b := by
  unfold sortsBefore at h
  simp only [Bool.or_eq_true, Bool.and_eq_true, decide_eq_true_eq] at h
  unfold keyLe
  rcases h with h | ⟨h1, h2⟩
  · exact Or.inl h
  · exact Or.inr ⟨h1, le_of_lt h2⟩

theorem keyLe_of_not_sortsBefore {a b : TaskRecord}
    (h : ¬ sortsBefore a b = true) : keyLe b a := by
  unfold sortsBefore at h
  simp only [Bool.or_eq_true, Bool.and_eq_true, decide_eq_true_eq, not_or,
    not_and, not_lt] at h
  obtain ⟨h1, h2⟩ := h
  unfold keyLe
  rcases lt_or_eq_of_le h1 with h | h
  · exact Or.inl h
  · exact Or.inr ⟨h.symm, h2 h⟩

theorem foldl_chooseNext_spec (ts : List TaskRecord) (b : TaskRecord) :
    ∃ m, ts.foldl chooseNext (some b) = some m ∧ (m = b ∨ m ∈ ts) ∧
      keyLe m b ∧ ∀ t ∈ ts, keyLe m t := by
  induction ts generalizing b with
  | nil => exact ⟨b, rfl, Or.inl rfl, keyLe_refl b, by simp⟩
  | cons x xs ih =>
      rw [List.foldl_cons]
      by_cases hx : sortsBefore x b = true
      · have hstep : chooseNext (some b) x = some x := by
          show (if sortsBefore x b = true then some x else some b) = some x
          rw [if_pos hx]
        rw [hstep]
        obtain ⟨m, hm, hmem, hle, hall⟩ := ih x
        refine ⟨m, hm, ?_, keyLe_trans hle (keyLe_of_sortsBefore hx), ?_⟩
        · rcases hmem with h | h
          · exact Or.inr (h ▸ List.mem_cons_self x xs)
          · exact Or.inr (List.mem_cons_of_mem x h)
        · intro t ht
          rcases List.mem_cons.mp ht with rfl | ht'
          · exact hle
          · exact hall t ht'
      · have hstep : chooseNext (some b) x = some b := by
          show (if sortsBefore x b = true then some x else some b) = some b
          rw [if_neg hx]
        rw [hstep]
        obtain ⟨m, hm, hmem, hle, hall⟩ := ih b
        refine ⟨m, hm, ?_, hle, ?_⟩
        · rcases hmem with h | h
          · exact Or.inl h
          · exact Or.inr (List.mem_cons_of_mem x h)
        · intro t ht
          rcases List.mem_cons.mp ht with rfl | ht'
          · exact keyLe_trans hle (keyLe_of_not_sortsBefore hx)
          · exact hall t ht'

theorem selectNext_eq_none (ts : List TaskRecord)
    (h : ∀ t ∈ ts, t.state ≠ TaskState.PENDING) : selectNext ts = none := by
  unfold selectNext
  have hfil : ts.filter (fun t => decide (t.state = TaskState.PENDING)) = [] :=
    List.filter_eq_nil_iff.mpr (fun t ht => by simpa using h t ht)
  rw [hfil]
  rfl

theorem selectNext_mem_spec (ts : List TaskRecord) (m : TaskRecord)
    (hm : selectNext ts = some m) :
    m ∈ ts ∧ m.state = TaskState.PENDING ∧
      ∀ t ∈ ts, t.state = TaskState.PENDING → keyLe m t := by
  unfold selectNext at hm
  cases hfil : ts.filter (fun t => decide (t.state = TaskState.PENDING)) with
  | nil =>
      rw [hfil] at hm
      exact absurd hm (by simp)
  | cons x xs =>
      rw [hfil, List.foldl_cons] at hm
      have hstep : chooseNext none x = some x := rfl
      rw [hstep] at hm
      obtain ⟨m', hm', hmem, hle, hall⟩ := foldl_chooseNext_spec xs x
      rw [hm'] at hm
      injection hm with hm
      subst hm
      have hmemfil : m' ∈ x :: xs := by
        rcases hmem with rfl | h
        · exact List.mem_cons_self _ _
        · exact List.mem_cons_of_mem _ h
      rw [← hfil] at hmemfil
      have hmem2 := List.mem_filter.mp hmemfil
      refine ⟨hmem2.1, by simpa using hmem2.2, ?_⟩
      intro t ht hp
      have htf : t ∈ ts.filter (fun t => decide (t.state = TaskState.PENDING)) :=
        List.mem_filter.mpr ⟨ht, by simp [hp]⟩
      rw [hfil] at htf
      rcases List.mem_cons.mp htf with rfl | ht'
      · exact hle
      · exact hall t ht'

theorem selectNext_ne_none (ts : List TaskRecord) (t : TaskRecord)
    (ht : t ∈ ts) (hp : t.state = TaskState.PENDING) :
    selectNext ts ≠ none := by
  unfold selectNext
  have htf : t ∈ ts.filter (fun t => decide (t.state = TaskState.PENDING)) :=
    List.mem_filter.mpr ⟨ht, by simp [hp]⟩
  cases hfil : ts.filter (fun t => decide (t.state = TaskState.PENDING)) with
  | nil =>
      rw [hfil] at htf
      simp at htf
  | cons x xs =>
      rw [List.foldl_cons]
      have hstep : chooseNext none x = some x := rfl
      rw [hstep]
      obtain ⟨m, hm, _, _, _⟩ := foldl_chooseNext_spec xs x
      rw [hm]
      simp

/-- Claim C3: get_next_task selects the PENDING task of highest priority
(ties broken by earliest created_at), transitions exactly that task to
IN_PROGRESS stamping started_at, returns it, and returns None changing
nothing when no PENDING task exists. -/
theorem C3_get_next_task_selection (now : Nat) (q : TaskQueue)
    (hids : (q.tasks.map fun t => t.id).Nodup) :
    ((∀ t ∈ q.tasks, t.state ≠ TaskState.PENDING) →
      get_next_task now q = (none, q)) ∧
    ((∃ t ∈ q.tasks, t.state = TaskState.PENDING) →
      (get_next_task now q).1 ≠ none) ∧
    (∀ m, (get_next_task now q).1 = some m →
      ∃ j, ∃ hj : j < q.tasks.length,
        (q.tasks[j]).state = TaskState.PENDING ∧
        m = { q.tasks[j] with
              state := TaskState.IN_PROGRESS,
              started_at := some now } ∧
        (∀ t ∈ q.tasks, t.state = TaskState.PENDING →
          t.priority ≤ (q.tasks[j]).priority ∧
          (t.priority = (q.tasks[j]).priority →
            (q.tasks[j]).created_at ≤ t.created_at)) ∧
        (get_next_task now q).2.tasks.length = q.tasks.length ∧
        (get_next_task now q).2.tasks[j]? =
          some { q.tasks[j] with
                 state := TaskState.IN_PROGRESS,
                 started_at := some now } ∧
        (∀ k, ∀ hk : k < q.tasks.length, k ≠ j →
          (get_next_task now q).2.tasks[k]? = some (q.tasks[k]))) := by
  refine ⟨?_, ?_, ?_⟩
  · intro h
    unfold get_next_task
    rw [selectNext_eq_none q.tasks h]
  · rintro ⟨t, ht, hp⟩
    unfold get_next_task
    cases hsel : selectNext q.tasks with
    | none => exact absurd hsel (selectNext_ne_none q.tasks t ht hp)
    | some r => simp
  · intro m hm
    cases hsel : selectNext q.tasks with
    | none =>
        unfold get_next_task at hm
        rw [hsel] at hm
        dsimp only at hm
        exact absurd hm (by simp)
    | some r =>
        obtain ⟨hrmem, hrp, hropt⟩ := selectNext_mem_spec q.tasks r hsel
        obtain ⟨j, hj, rfl⟩ := List.getElem_of_mem hrmem
        have hgnt : get_next_task now q =
            (some { q.tasks[j] with
                    state := TaskState.IN_PROGRESS,
                    started_at := some now },
             { q with tasks := q.tasks.map (fun t =>
                if t.id = (q.tasks[j]).id then
                  { t with
                    state := TaskState.IN_PROGRESS,
                    started_at := some now }
                else t) }) := by
          unfold get_next_task
          rw [hsel]
        rw [hgnt] at hm
        have hmu : m = { q.tasks[j] with
            state := TaskState.IN_PROGRESS,
            started_at := some now } := by
          injection hm with hm
          exact hm.symm
        refine ⟨j, hj, hrp, hmu, ?_, ?_, ?_, ?_⟩
        · intro t ht hp
          have hk := hropt t ht hp
          unfold keyLe at hk
          constructor
          · rcases hk with h | ⟨e, _⟩
            · exact le_of_lt h
            · exact le_of_eq e.symm
          · intro he
            rcases hk with h | ⟨_, hc⟩
            · exact absurd (he ▸ h) (lt_irrefl _)
            · exact hc
        · rw [hgnt]
          exact List.length_map _ _
        · rw [hgnt]
          simp [List.getElem?_map, List.getElem?_eq_getElem hj]
        · intro k hk hkj
          have hne : ¬ ((q.tasks[k]).id = (q.tasks[j]).id) := by
            intro he
            apply hkj
            have hk' : k < (q.tasks.map (fun t => t.id)).length := by
              simpa using hk
            have hj' : j < (q.tasks.map (fun t => t.id)).length := by
              simpa using hj
            have hmm : (q.tasks.map (fun t => t.id))[k] =
                (q.tasks.map (fun t => t.id))[j] := by
              simp only [List.getElem_map]
              exact he
            exact hids.getElem_inj_iff.mp hmm
          rw [hgnt]
          simp [List.getElem?_map, List.getElem?_eq_getElem hk, hne]

/-- Claim C3 witness: the selection property evaluated on a concrete
queue of three PENDING rows, where the claimed row is the one with
highest priority and earliest created_at among the tied pair. -/
theorem C3_get_next_task_selection_witness :
    (sampleQueue.tasks.map fun t => t.id).Nodup ∧
    (((∀ t ∈ sampleQueue.tasks, t.state ≠ TaskState.PENDING) →
      get_next_task 99 sampleQueue = (none, sampleQueue)) ∧
    ((∃ t ∈ sampleQueue.tasks, t.state = TaskState.PENDING) →
      (get_next_task 99 sampleQueue).1 ≠ none) ∧
    (∀ m, (get_next_task 99 sampleQueue).1 = some m →
      ∃ j, ∃ hj : j < sampleQueue.tasks.length,
        (sampleQueue.tasks[j]).state = TaskState.PENDING ∧
        m = { sampleQueue.tasks[j] with
              state := TaskState.IN_PROGRESS,
              started_at := some 99 } ∧
        (∀ t ∈ sampleQueue.tasks, t.state = TaskState.PENDING →
          t.priority ≤ (sampleQueue.tasks[j]).priority ∧
          (t.priority = (sampleQueue.tasks[j]).priority →
            (sampleQueue.tasks[j]).created_at ≤ t.created_at)) ∧
        (get_next_task 99 sampleQueue).2.tasks.length =
          sampleQueue.tasks.length ∧
        (get_next_task 99 sampleQueue).2.tasks[j]? =
          some { sampleQueue.tasks[j] with
                 state := TaskState.IN_PROGRESS,
                 started_at := some 99 } ∧
        (∀ k, ∀ hk : k < sampleQueue.tasks.length, k ≠ j →
          (get_next_task 99 sampleQueue).2.tasks[k]? =
            some (sampleQueue.tasks[k])))) :=
  ⟨by decide, C3_get_next_task_selection 99 sampleQueue (by decide)⟩

theorem terminal_cases {s : TaskState} (h : isTerminal s = true) :
    s = TaskState.COMPLETED ∨ s = TaskState.FAILED := by
  cases s <;> simp_all [isTerminal]

theorem eq_getElem_of_id_eq {l : List TaskRecord}
    (hnd : (l.map fun t => t.id).Nodup) {i : Nat} (hi : i < l.length)
    {t : TaskRecord} (ht : t ∈ l) (heq : t.id = (l[i]).id) : t = l[i] := by
  obtain ⟨j, hj, rfl⟩ := List.getElem_of_mem ht
  have hj' : j < (l.map (fun t => t.id)).length := by simpa using hj
  have hi' : i < (l.map (fun t => t.id)).length := by simpa using hi
  have hmm : (l.map (fun t => t.id))[j] = (l.map (fun t => t.id))[i] := by
    simp only [List.getElem_map]
    exact heq
  have hji := hnd.getElem_inj_iff.mp hmm
  subst hji
  rfl

/-- Claim C4 counterexample: update_state is one of the listed queue
operations, and it reopens a terminal task — a COMPLETED task explicitly
set back to PENDING becomes PENDING again. -/
theorem C4_counterexample_update_state_reopens :
    doneQueue.tasks.map (fun t => t.state) = [TaskState.COMPLETED] ∧
    (update_state 5 1 TaskState.PENDING none doneQueue).tasks.map
        (fun t => t.state) = [TaskState.PENDING] := by
  exact ⟨rfl, rfl⟩

/-- Claim C4 as amended: once a task is terminal, add_task, get_next_task
and cleanup_stale_tasks never change its state; update_state, however,
overwrites the state of the task with the requested value
unconditionally, so it can reopen a terminal task (in-repo callers only
reset IN_PROGRESS tasks). -/
theorem C4_terminal_not_reopened (q : TaskQueue) (now maxAge : Nat)
    (ty : TaskType) (tg : String) (pr : Int) (i : Nat)
    (hi : i < q.tasks.length)
    (hids : (q.tasks.map fun t => t.id).Nodup)
    (hterm : isTerminal (q.tasks[i]).state = true) :
    ((get_next_task now q).2.tasks[i]?).map (fun t => t.state) =
      some ((q.tasks[i]).state) ∧
    ((cleanup_stale_tasks now maxAge q).2.tasks[i]?).map (fun t => t.state) =
      some ((q.tasks[i]).state) ∧
    ((add_task now ty tg pr q).2.tasks[i]?).map (fun t => t.state) =
      some ((q.tasks[i]).state) ∧
    ∀ tid st err,
      ((update_state now tid st err q).tasks[i]?).map (fun t => t.state) =
        some (if (q.tasks[i]).id = tid then st else (q.tasks[i]).state) := by
  refine ⟨?_, ?_, ?_, ?_⟩
  · cases hsel : selectNext q.tasks with
    | none =>
        have hq : get_next_task now q = (none, q) := by
          unfold get_next_task
          rw [hsel]
        rw [hq]
        simp [List.getElem?_eq_getElem hi]
    | some r =>
        obtain ⟨hrmem, hrp, _⟩ := selectNext_mem_spec q.tasks r hsel
        have hq : (get_next_task now q).2.tasks = q.tasks.map (fun t =>
            if t.id = r.id then
              { t with
                state := TaskState.IN_PROGRESS,
                started_at := some now }
            else t) := by
          unfold get_next_task
          rw [hsel]
        have hne : ¬ ((q.tasks[i]).id = r.id) := by
          intro he
          have heq := eq_getElem_of_id_eq hids hi hrmem he.symm
          rw [heq] at hrp
          rcases terminal_cases hterm with hc | hc <;> simp [hc] at hrp
        rw [hq]
        simp [List.getElem?_map, List.getElem?_eq_getElem hi, hne]
  · have hst : staleP now maxAge (q.tasks[i]) = false := by
      rcases terminal_cases hterm with hc | hc <;> simp [staleP, hc]
    have hq : (cleanup_stale_tasks now maxAge q).2.tasks = q.tasks.map (fun t =>
        if staleP now maxAge t then
          { t with
            state := TaskState.FAILED,
            error_message := some (staleMsg maxAge),
            completed_at := some now }
        else t) := rfl
    rw [hq]
    simp [List.getElem?_map, List.getElem?_eq_getElem hi, hst]
  · have hq : (add_task now ty tg pr q).2.tasks = q.tasks ++
        [{ id := q.next_id, task_type := ty, target := tg,
           state := TaskState.PENDING, priority := pr,
           created_at := now }] := rfl
    rw [hq, List.getElem?_append, if_pos hi]
    simp [List.getElem?_eq_getElem hi]
  · intro tid st err
    have hq : (update_state now tid st err q).tasks = q.tasks.map (fun t =>
        if t.id = tid then applyUpdate now st err t else t) := rfl
    rw [hq]
    by_cases hid : (q.tasks[i]).id = tid
    · simp [List.getElem?_map, List.getElem?_eq_getElem hi, hid, applyUpdate]
    · simp [List.getElem?_map, List.getElem?_eq_getElem hi, hid]

/-- Claim C4 witness: on a queue holding one COMPLETED task, none of
get_next_task, cleanup_stale_tasks and add_task changes its state, while
update_state with a non-matching id leaves it alone. -/
theorem C4_terminal_not_reopened_witness :
    ((get_next_task 7 doneQueue).2.tasks[0]?).map (fun t => t.state) =
      some TaskState.COMPLETED ∧
    ((cleanup_stale_tasks 7 24 doneQueue).2.tasks[0]?).map (fun t => t.state) =
      some TaskState.COMPLETED ∧
    ((add_task 7 TaskType.ADD_SOURCE "u" 5 doneQueue).2.tasks[0]?).map
        (fun t => t.state) = some TaskState.COMPLETED ∧
    ((update_state 7 9 TaskState.PENDING none doneQueue).tasks[0]?).map
        (fun t => t.state) = some TaskState.COMPLETED := by
  have H := C4_terminal_not_reopened doneQueue 7 24 TaskType.ADD_SOURCE "u" 5 0
    (by decide) (by decide) (by decide)
  exact ⟨H.1, H.2.1, H.2.2.1, H.2.2.2 9 TaskState.PENDING none⟩

theorem update_state_tasks (now tid : Nat) (st : TaskState)
    (err : Option String) (q : TaskQueue) :
    (update_state now tid st err q).tasks =
      q.tasks.map (fun t => if t.id = tid then applyUpdate now st err t
        else t) := rfl

theorem applyUpdate_id (now : Nat) (st : TaskState) (err : Option String)
    (t : TaskRecord) : (applyUpdate now st err t).id = t.id := rfl

theorem applyUpdate_pending (now : Nat) (t : TaskRecord) :
    applyUpdate now TaskState.PENDING none t =
      { t with state := TaskState.PENDING } := rfl

theorem foldl_reset_getElem (now : Nat) (L : List TaskRecord) :
    ∀ (q : TaskQueue) (i : Nat) (hi : i < q.tasks.length),
    (L.foldl (fun acc t => update_state now t.id TaskState.PENDING none acc)
        q).tasks[i]? =
      some (if (q.tasks[i]).id ∈ L.map (fun t => t.id) then
              applyUpdate now TaskState.PENDING none (q.tasks[i])
            else q.tasks[i]) := by
  induction L with
  | nil =>
      intro q i hi
      simp [List.getElem?_eq_getElem hi]
  | cons x xs ih =>
      intro q i hi
      rw [List.foldl_cons]
      have hi2 : i < (update_state now x.id TaskState.PENDING none q).tasks.length := by
        rw [update_state_tasks, List.length_map]
        exact hi
      rw [ih _ i hi2]
      have hup : (update_state now x.id TaskState.PENDING none q).tasks[i] =
          (if (q.tasks[i]).id = x.id then
            applyUpdate now TaskState.PENDING none (q.tasks[i])
           else q.tasks[i]) := by
        simp [update_state_tasks]
      rw [hup]
      by_cases hid : (q.tasks[i]).id = x.id
      · rw [if_pos hid]
        by_cases hmem : (q.tasks[i]).id ∈ xs.map (fun t => t.id) <;>
          simp [applyUpdate_id, applyUpdate_pending, hid, hmem]
      · rw [if_neg hid]
        by_cases hmem : (q.tasks[i]).id ∈ xs.map (fun t => t.id) <;>
          simp [hid, hmem]

theorem cleanup_tasks (now maxAge : Nat) (q : TaskQueue) :
    (cleanup_stale_tasks now maxAge q).2.tasks =
      q.tasks.map (fun t =>
        if staleP now maxAge t then
          { t with
            state := TaskState.FAILED,
            error_message := some (staleMsg maxAge),
            completed_at := some now }
        else t) := rfl

theorem cleanup_ids (now maxAge : Nat) (q : TaskQueue) :
    (cleanup_stale_tasks now maxAge q).2.tasks.map (fun t => t.id) =
      q.tasks.map (fun t => t.id) := by
  rw [cleanup_tasks, List.map_map]
  have hfun : ((fun t : TaskRecord => t.id) ∘ (fun t =>
      if staleP now maxAge t then
        { t with
          state := TaskState.FAILED,
          error_message := some (staleMsg maxAge),
          completed_at := some now }
      else t)) = fun t : TaskRecord => t.id := by
    funext t
    by_cases h : staleP now maxAge t <;> simp [h]
  rw [hfun]

theorem mem_in_progress_ids (q1 : TaskQueue)
    (hids : (q1.tasks.map fun t => t.id).Nodup) (i : Nat)
    (hi : i < q1.tasks.length) :
    ((q1.tasks[i]).id ∈ (get_in_progress_tasks q1).map (fun t => t.id)) ↔
      (q1.tasks[i]).state = TaskState.IN_PROGRESS := by
  constructor
  · intro hmem
    obtain ⟨t, htip, hid⟩ := List.mem_map.mp hmem
    obtain ⟨htq, hts⟩ := List.mem_filter.mp htip
    have hteq := eq_getElem_of_id_eq hids hi htq hid
    rw [← hteq]
    simpa using hts
  · intro hip
    apply List.mem_map.mpr
    refine ⟨q1.tasks[i], List.mem_filter.mpr ⟨List.getElem_mem hi, ?_⟩, rfl⟩
    simp [hip]

/-- Claim C5: after startup, every IN_PROGRESS task whose started_at is
older than the 24-hour stale threshold is FAILED with the synthetic
error and a completed_at stamp, every other IN_PROGRESS task is reset to
PENDING, and the stale-cleanup step returns the number of tasks it
failed. -/
theorem C5_startup_crash_recovery (now : Nat) (q : TaskQueue)
    (hids : (q.tasks.map fun t => t.id).Nodup) :
    (cleanup_stale_tasks now 24 q).1 = q.tasks.countP (staleP now 24) ∧
    (startup now q).tasks.length = q.tasks.length ∧
    ∀ i, ∀ hi : i < q.tasks.length,
      (q.tasks[i]).state = TaskState.IN_PROGRESS →
      ((∀ s, (q.tasks[i]).started_at = some s → s + 24 < now →
        (startup now q).tasks[i]? =
          some { q.tasks[i] with
                 state := TaskState.FAILED,
                 error_message := some (staleMsg 24),
                 completed_at := some now }) ∧
       (staleP now 24 (q.tasks[i]) = false →
        (startup now q).tasks[i]? =
          some { q.tasks[i] with state := TaskState.PENDING })) := by
  have hids1 : ((cleanup_stale_tasks now 24 q).2.tasks.map
      (fun t => t.id)).Nodup := by
    rw [cleanup_ids]
    exact hids
  have hlen1 : (cleanup_stale_tasks now 24 q).2.tasks.length =
      q.tasks.length := by
    rw [cleanup_tasks, List.length_map]
  have hstart : startup now q =
      (get_in_progress_tasks (cleanup_stale_tasks now 24 q).2).foldl
        (fun acc t => update_state now t.id TaskState.PENDING none acc)
        (cleanup_stale_tasks now 24 q).2 := rfl
  refine ⟨?_, ?_, ?_⟩
  · exact (List.countP_eq_length_filter _ _).symm
  · rw [hstart]
    have hfl : ∀ (L : List TaskRecord) (qq : TaskQueue),
        (L.foldl (fun acc t =>
          update_state now t.id TaskState.PENDING none acc) qq).tasks.length =
          qq.tasks.length := by
      intro L
      induction L with
      | nil => intro qq; rfl
      | cons x xs ih =>
          intro qq
          rw [List.foldl_cons, ih, update_state_tasks, List.length_map]
    rw [hfl, hlen1]
  · intro i hi hip
    have hi1 : i < (cleanup_stale_tasks now 24 q).2.tasks.length := by
      rw [hlen1]
      exact hi
    have hq1i : (cleanup_stale_tasks now 24 q).2.tasks[i] =
        (if staleP now 24 (q.tasks[i]) then
          { q.tasks[i] with
            state := TaskState.FAILED,
            error_message := some (staleMsg 24),
            completed_at := some now }
         else q.tasks[i]) := by
      simp [cleanup_tasks]
    have hfold := foldl_reset_getElem now
      (get_in_progress_tasks (cleanup_stale_tasks now 24 q).2)
      (cleanup_stale_tasks now 24 q).2 i hi1
    have hmemiff := mem_in_progress_ids (cleanup_stale_tasks now 24 q).2
      hids1 i hi1
    constructor
    · intro s hs hlt
      have hstale : staleP now 24 (q.tasks[i]) = true := by
        simp [staleP, hip, hs, hlt]
      rw [hstale, if_pos rfl] at hq1i
      have hnotip : ¬ ((cleanup_stale_tasks now 24 q).2.tasks[i]).state =
          TaskState.IN_PROGRESS := by
        rw [hq1i]
        simp
      have hnotmem := (fun hm => hnotip (hmemiff.mp hm))
      rw [hstart]
      rw [hfold]
      rw [if_neg hnotmem, hq1i]
    · intro hnst
      rw [hnst, if_neg (by simp)] at hq1i
      have hisip : ((cleanup_stale_tasks now 24 q).2.tasks[i]).state =
          TaskState.IN_PROGRESS := by
        rw [hq1i]
        exact hip
      have hmem := hmemiff.mpr hisip
      rw [hstart, hfold, if_pos hmem, hq1i, applyUpdate_pending]

/-- Claim C5 witness: at hour 100 with a 24-hour threshold, the task
started at hour 0 is FAILED with the synthetic stale message and the one
started at hour 90 is reset to PENDING; the cleanup step reports one
stale task. -/
theorem C5_startup_crash_recovery_witness :
    (cleanup_stale_tasks 100 24 recoveryQueue).1 = 1 ∧
    (startup 100 recoveryQueue).tasks[0]? =
      some { staleTask with
             state := TaskState.FAILED,
             error_message := some (staleMsg 24),
             completed_at := some 100 } ∧
    (startup 100 recoveryQueue).tasks[1]? =
      some { youngTask with state := TaskState.PENDING } := by
  have H := C5_startup_crash_recovery 100 recoveryQueue (by decide)
  have h0 := (H.2.2 0 (by decide) (by decide)).1 0 rfl (by decide)
  have h1 := (H.2.2 1 (by decide) (by decide)).2 (by decide)
  exact ⟨H.1, h0, h1⟩

theorem diagnose_confidence (ctx : DiagnosisContext) (env : HealEnv) :
    (diagnose ctx env.oracleDiag).confidence = diagConfidence env := by
  cases h : env.oracleDiag <;> simp [diagnose, diagConfidence, h]

/-- Claim C8: a heal invocation that passes the circuit breaker and whose
diagnosis yields confidence below 0.3 — including an Oracle failure,
which diagnose turns into a confidence-0 verdict instead of raising —
aborts before patching: heal returns failure, exactly one
FixHistoryRecord with success = false is written, no staging file is
written, and no Lesson is recorded. -/
theorem C8_low_confidence_aborts (now : Nat) (rec : SourceHealthRecord)
    (sn et em : String) (env : HealEnv)
    (hcb : (can_attempt_fix now rec).1 = true)
    (hcol : env.collectRaises = false)
    (hconf : diagConfidence env < 3 / 10) :
    (heal now rec sn et em env).success = false ∧
    (heal now rec sn et em env).fixHistory.length = 1 ∧
    (∀ fr ∈ (heal now rec sn et em env).fixHistory, fr.success = false) ∧
    (heal now rec sn et em env).stagedWrites = [] ∧
    (heal now rec sn et em env).lessons = 0 ∧
    ∀ ctx, (diagnose ctx none).confidence = 0 := by
  simp only [heal, hcb, hcol]
  rw [if_neg (by simp), if_neg (by simp)]
  rw [diagnose_confidence, if_pos hconf]
  refine ⟨rfl, rfl, ?_, rfl, rfl, fun ctx => rfl⟩
  intro fr hfr
  rcases List.mem_singleton.mp hfr with rfl
  rfl

/-- Claim C8 witness: with a concrete Oracle confidence of 0.1 the
workflow aborts — one failed audit row, no staging write, no lesson. -/
theorem C8_low_confidence_aborts_witness :
    (can_attempt_fix 0 (freshSourceHealthRecord "s")).1 = true ∧
    lowConfEnv.collectRaises = false ∧
    diagConfidence lowConfEnv < 3 / 10 ∧
    (heal 0 (freshSourceHealthRecord "s") "s" "KeyError" "boom"
      lowConfEnv).success = false ∧
    (heal 0 (freshSourceHealthRecord "s") "s" "KeyError" "boom"
      lowConfEnv).fixHistory.length = 1 ∧
    (∀ fr ∈ (heal 0 (freshSourceHealthRecord "s") "s" "KeyError" "boom"
      lowConfEnv).fixHistory, fr.success = false) ∧
    (heal 0 (freshSourceHealthRecord "s") "s" "KeyError" "boom"
      lowConfEnv).stagedWrites = [] ∧
    (heal 0 (freshSourceHealthRecord "s") "s" "KeyError" "boom"
      lowConfEnv).lessons = 0 := by
  have hconf : diagConfidence lowConfEnv < 3 / 10 := by
    show (1 : ℚ) / 10 < 3 / 10
    norm_num
  have H := C8_low_confidence_aborts 0 (freshSourceHealthRecord "s") "s"
    "KeyError" "boom" lowConfEnv rfl rfl hconf
  exact ⟨rfl, rfl, hconf, H.1, H.2.1, H.2.2.1, H.2.2.2.1, H.2.2.2.2.1⟩

/-- Claim C9 counterexample: a circuit-breaker refusal is a terminal
outcome of heal (it returns failure), yet it writes no FixHistoryRecord
at all, so not every terminal outcome writes exactly one. -/
theorem C9_counterexample_no_record_on_refusal :
    (heal 0 exhaustedRec "s" "E" "m" goodEnv).success = false ∧
    (heal 0 exhaustedRec "s" "E" "m" goodEnv).fixHistory = [] := by
  exact ⟨rfl, rfl⟩

/-- Claim C9 as amended: every terminal outcome of the healing workflow
that passes the circuit breaker and reaches the pipeline body — success
or abort at the diagnosis, patch, staging, validation or promotion stage
— writes exactly one FixHistoryRecord whose success flag matches the
returned outcome and which carries the error text; the circuit-breaker
refusal and a mid-pipeline exception caught by the outer handler write
none. -/
theorem C9_fix_history_exactly_once (now : Nat) (rec : SourceHealthRecord)
    (sn et em : String) (env : HealEnv) :
    ((can_attempt_fix now rec).1 = true → env.collectRaises = false →
      (heal now rec sn et em env).fixHistory.length = 1 ∧
      ∀ fr ∈ (heal now rec sn et em env).fixHistory,
        fr.success = (heal now rec sn et em env).success ∧
        fr.error_type = et) ∧
    ((can_attempt_fix now rec).1 = false →
      (heal now rec sn et em env).fixHistory = []) ∧
    (env.collectRaises = true →
      (heal now rec sn et em env).fixHistory = []) := by
  refine ⟨?_, ?_, ?_⟩
  · intro hcb hcol
    simp only [heal, hcb, hcol]
    rw [if_neg (by simp), if_neg (by simp)]
    split
    · refine ⟨rfl, ?_⟩
      intro fr hfr
      rcases List.mem_singleton.mp hfr with rfl
      exact ⟨rfl, rfl⟩
    · split
      · refine ⟨rfl, ?_⟩
        intro fr hfr
        rcases List.mem_singleton.mp hfr with rfl
        exact ⟨rfl, rfl⟩
      · split
        · refine ⟨rfl, ?_⟩
          intro fr hfr
          rcases List.mem_singleton.mp hfr with rfl
          exact ⟨rfl, rfl⟩
        · split
          · refine ⟨rfl, ?_⟩
            intro fr hfr
            rcases List.mem_singleton.mp hfr with rfl
            exact ⟨rfl, rfl⟩
          · split
            · refine ⟨rfl, ?_⟩
              intro fr hfr
              rcases List.mem_singleton.mp hfr with rfl
              exact ⟨rfl, rfl⟩
            · refine ⟨rfl, ?_⟩
              intro fr hfr
              rcases List.mem_singleton.mp hfr with rfl
              exact ⟨rfl, rfl⟩
  · intro hcb
    simp [heal, hcb]
  · intro hcr
    by_cases hcb : (can_attempt_fix now rec).1 = true
    · simp [heal, hcb, hcr]
    · have hcb2 : (can_attempt_fix now rec).1 = false := by
        simpa using hcb
      simp [heal, hcb2]

/-- Claim C9 witness: with the circuit breaker closed and a successful
run on a concrete environment, exactly one audit row is written and its
success flag matches the returned outcome. -/
theorem C9_fix_history_exactly_once_witness :
    (can_attempt_fix 0 (freshSourceHealthRecord "s")).1 = true ∧
    goodEnv.collectRaises = false ∧
    ((heal 0 (freshSourceHealthRecord "s") "s" "KeyError" "boom"
      goodEnv).fixHistory.length = 1 ∧
    ∀ fr ∈ (heal 0 (freshSourceHealthRecord "s") "s" "KeyError" "boom"
      goodEnv).fixHistory,
      fr.success = (heal 0 (freshSourceHealthRecord "s") "s" "KeyError"
        "boom" goodEnv).success ∧
      fr.error_type = "KeyError") :=
  ⟨rfl, rfl, (C9_fix_history_exactly_once 0 (freshSourceHealthRecord "s")
    "s" "KeyError" "boom" goodEnv).1 rfl rfl⟩

end SmartPipeline
